import Mathlib

/-!
Shallow embedding of the Phonefit moment-generation and notification engine.

The embedding follows the converged engine in `src/utils/momentsEngine.tsx`
(class `MomentEngine`), the notification bookkeeping in
`src/utils/notificationsEngine.tsx` (`recordMomentSeen`), and the extended
step-tracking rewrite of the engine found in `src/unnamed/part_000`
(namespace `V0` below).

Modelling conventions:
* epoch-millisecond timestamps, priorities, tiers, hours and step counts are
  `Int` (JS numbers acting as integers);
* battery level and storage byte counts are `ℚ` (JS numbers used as ratios);
* a JS object used as a string-keyed map is an association list
  `List (String × Int)` with unique keys maintained by `setKey`;
* `Math.random()`-derived draws are explicit parameters
  (`stepDraw` for `Math.floor(Math.random() * 500)`,
   `benefitIdx` for `Math.floor(Math.random() * benefits.length)`);
* the wall clock (`Date.now()`, `getHours()`, `getDay()`,
  `setHours(23,59,59,999)`) is an explicit `Clock` record;
* `AsyncStorage` traffic is modelled by an explicit store value plus a log of
  the operations a cycle performs.
-/

/-- One contextual suggestion record (interface `PhoneMoment` in
`src/types/index.ts`). Display-only fields are kept so that claims about
"randomness affects only display text" are statable. -/
structure PhoneMoment where
  id : String
  emoji : String
  title : String
  description : String
  priority : Int
  expiresAt : Int
  category : String
  notifyEligible : Bool
  suggestion : Option String := none
  deriving DecidableEq, Repr

/-- The wall-clock values `generateMoments` reads at the start of a cycle:
`Date.now()`, `new Date().setHours(23,59,59,999)`, `getHours()`, `getDay()`. -/
structure Clock where
  now : Int
  endOfDay : Int
  hour : Int
  day : Int
  deriving DecidableEq, Repr

/-- The fields of `DeviceInfo` the engine reads (`info.refreshRate`,
an optional number: `none` models `undefined`). -/
structure DeviceInfo where
  refreshRate : Option Int := none
  deriving DecidableEq, Repr

/-- One entry of `DeviceCapabilities.sensors`. -/
structure Sensor where
  name : String
  available : Bool
  deriving DecidableEq, Repr

/-- The fields of `DeviceCapabilities` the engine reads. -/
structure DeviceCapabilities where
  performanceTier : Int
  gamingTier : Int
  storageTotal : ℚ
  storageFree : ℚ
  sensors : List Sensor
  deriving DecidableEq, Repr

/-- The fields of `RuntimeSignals` the engine reads. -/
structure RuntimeSignals where
  batteryLevel : ℚ
  deriving DecidableEq, Repr

/-- JS-object lookup `obj[k]` on an association list (`undefined` is `none`). -/
def lookupKey : List (String × Int) → String → Option Int
  | [], _ => none
  | (k', v') :: rest, k => if k' = k then some v' else lookupKey rest k

/-- JS-object update `obj[k] = v`: overwrite the existing entry for `k`,
or append a fresh one. -/
def setKey : List (String × Int) → String → Int → List (String × Int)
  | [], k, v => [(k, v)]
  | (k', v') :: rest, k, v =>
      if k' = k then (k, v) :: rest else (k', v') :: setKey rest k v

/-- `GENERATION_INTERVAL = 30 * 60 * 1000` (30 min). -/
def GENERATION_INTERVAL : Int := 30 * 60 * 1000

/-- `NOTIFICATION_COOLDOWN = 4 * 60 * 60 * 1000` (4 hrs). -/
def NOTIFICATION_COOLDOWN : Int := 4 * 60 * 60 * 1000

/-- The cooldown clause of the gatekeeper
(`src/utils/momentsEngine.tsx` lines 262–263):
`const last = this.notifiedMoments[moment.id]; return !last || now - last > this.NOTIFICATION_COOLDOWN`.
A stored `0` is falsy in JS, hence the `last == 0` disjunct. -/
def cooldownOk (notified : List (String × Int)) (id : String) (now : Int) : Bool :=
  match lookupKey notified id with
  | none => true
  | some last => last == 0 || decide (NOTIFICATION_COOLDOWN < now - last)

/-- `MomentEngine.isNotificationCandidate`
(`src/utils/momentsEngine.tsx` lines 257–264). -/
def isNotificationCandidate (moment : PhoneMoment) (now : Int)
    (notified : List (String × Int)) : Bool :=
  if !moment.notifyEligible then false
  else if moment.priority < 4 then false
  else if moment.expiresAt - now < 60 * 60 * 1000 then false
  else cooldownOk notified moment.id now

/-- The order imposed by the comparator
`(a, b) => b.priority - a.priority || a.expiresAt - b.expiresAt`
(`src/utils/momentsEngine.tsx` line 249): `a` sorts no later than `b`
iff the comparator value is `≤ 0`. -/
def momentLE (a b : PhoneMoment) : Prop :=
  b.priority < a.priority ∨ (a.priority = b.priority ∧ a.expiresAt ≤ b.expiresAt)

instance : DecidableRel momentLE := fun a b => by
  unfold momentLE; infer_instance

instance : IsTotal PhoneMoment momentLE where
  total a b := by unfold momentLE; omega

instance : IsTrans PhoneMoment momentLE where
  trans a b c hab hbc := by unfold momentLE at *; omega

/-- `MomentEngine.resolveConflicts`
(`src/utils/momentsEngine.tsx` lines 241–251): a priority-5 candidate
suppresses everything of priority `< 4`; then sort by the comparator and
keep the first four. -/
def resolveConflicts (moments : List PhoneMoment) : List PhoneMoment :=
  let hasCritical := moments.any (fun m => m.priority == 5)
  let filtered :=
    if hasCritical then moments.filter (fun m => decide (4 ≤ m.priority))
    else moments
  (List.insertionSort momentLE filtered).take 4

/-- Denominator of the storage free-percentage computation:
`caps.storage.total || 100` (`src/utils/momentsEngine.tsx` line 149) —
in JS a total of `0` is falsy, so the denominator falls back to `100`. -/
def storageDenominator (caps : DeviceCapabilities) : ℚ :=
  if caps.storageTotal = 0 then 100 else caps.storageTotal

/-- `const freePercent = (free / total) * 100`
(`src/utils/momentsEngine.tsx` lines 148–150). -/
def storageFreePercent (caps : DeviceCapabilities) : ℚ :=
  (caps.storageFree / storageDenominator caps) * 100

/-- `MomentEngine.generateMoments` (`src/utils/momentsEngine.tsx`
lines 78–235): ten independent rules, each contributing zero or one moment,
in source order. -/
def generateMoments (info : DeviceInfo) (caps : DeviceCapabilities)
    (runtime : RuntimeSignals) (clock : Clock) : List PhoneMoment :=
  let now := clock.now
  let endOfDay := clock.endOfDay
  let hour := clock.hour
  let day := clock.day
  let isWeekend : Prop := day = 0 ∨ day = 6
  let freePercent := storageFreePercent caps
  -- 🌅 Morning: full battery
  (if 6 ≤ hour ∧ hour ≤ 11 ∧ (9 : ℚ)/10 ≤ runtime.batteryLevel then
    [{ id := "morning-charge-ready", emoji := "☀️",
       title := "Phone fully charged",
       description := "Start your day without worrying about battery.",
       priority := 3, expiresAt := endOfDay, category := "morning",
       notifyEligible := false }] else []) ++
  -- 🚇 Commute: smooth experience
  (if 7 ≤ hour ∧ hour ≤ 10 ∧ 4 ≤ caps.performanceTier then
    [{ id := "commute-ready", emoji := "🚇",
       title := "Commute-ready phone",
       description := "Smooth navigation, streaming, and music for your trip.",
       priority := 4, expiresAt := now + 2 * 60 * 60 * 1000,
       category := "commute", notifyEligible := true }] else []) ++
  -- 📈 Productivity: battery & performance check
  (if 12 ≤ hour ∧ hour ≤ 17 ∧ 4 ≤ caps.performanceTier ∧
      (1 : ℚ)/2 < runtime.batteryLevel then
    [{ id := "productivity-window", emoji := "📈",
       title := "Good time for heavy tasks",
       description := "Battery and performance are optimal for calls or apps.",
       priority := 4, expiresAt := now + 3 * 60 * 60 * 1000,
       category := "productivity", notifyEligible := true }] else []) ++
  -- 🎬 Evening entertainment
  (if 18 ≤ hour ∧ hour ≤ 23 ∧ 3 ≤ caps.performanceTier then
    [{ id := "evening-entertainment", emoji := "🎬",
       title := "Perfect for movies or gaming",
       description := "Your phone can handle longer sessions tonight.",
       priority := 4, expiresAt := endOfDay, category := "entertainment",
       notifyEligible := false }] else []) ++
  -- 💾 Storage alerts
  (if freePercent < 10 then
    [{ id := "storage-critical", emoji := "⚠️",
       title := "Storage almost full",
       description := "Free up space to keep your phone fast.",
       priority := 5, expiresAt := endOfDay, category := "storage",
       notifyEligible := true,
       suggestion := some "Delete large files or unused apps" }]
   else if freePercent < 30 then
    [{ id := "storage-warning", emoji := "🛋️",
       title := "Storage getting tight",
       description := "Consider cleaning up some files soon.",
       priority := 3, expiresAt := endOfDay, category := "storage",
       notifyEligible := false }] else []) ++
  -- ⚡ Performance: smooth display (`info.refreshRate && info.refreshRate >= 120`)
  (if (match info.refreshRate with
       | none => false
       | some r => !(r == 0) && decide (120 ≤ r)) then
    [{ id := "high-refresh-display", emoji := "✨",
       title := "Ultra-smooth scrolling",
       description := "120Hz screen for silky animations and fluid scrolling.",
       priority := 4, expiresAt := endOfDay, category := "performance",
       notifyEligible := false }] else []) ++
  -- 🛰️ Sensors: real benefit for apps
  (if 3 ≤ (caps.sensors.filter (fun s => s.available)).length then
    [{ id := "sensor-usage", emoji := "🛰️",
       title := "Sensors ready",
       description := "AR, fitness, and navigation apps will perform well.",
       priority := 3, expiresAt := endOfDay, category := "sensors",
       notifyEligible := false }] else []) ++
  -- 🎮 Weekend gaming
  (if isWeekend ∧ 4 ≤ caps.gamingTier then
    [{ id := "weekend-gaming", emoji := "🎮",
       title := "Gaming session ready",
       description := "Your phone can handle long gaming sessions without lag.",
       priority := 4, expiresAt := endOfDay, category := "weekend",
       notifyEligible := false }] else []) ++
  -- 🔋 Low battery alert
  (if 0 < runtime.batteryLevel ∧ runtime.batteryLevel < (1 : ℚ)/5 then
    [{ id := "battery-low", emoji := "🔋",
       title := "Low battery",
       description := "Battery under 20%, consider charging soon.",
       priority := 5, expiresAt := now + 2 * 60 * 60 * 1000,
       category := "battery", notifyEligible := true }] else [])

/-- The `STORAGE_KEYS.notified` literal `"@moment_notification_history"`. -/
def keyNotified : String := "@moment_notification_history"

/-- The `STORAGE_KEYS.seen` literal `"@moment_seen_history"`. -/
def keySeen : String := "@moment_seen_history"

/-- One `AsyncStorage` operation performed during a cycle. -/
inductive StorageOp where
  | getItem (key : String)
  | setItem (key : String) (value : List (String × Int))
  deriving DecidableEq, Repr

/-- The durable key-value store as the engine sees it: the two blobs behind
`STORAGE_KEYS.notified` and `STORAGE_KEYS.seen`. -/
structure Store where
  notified : List (String × Int)
  seen : List (String × Int)
  deriving DecidableEq, Repr

/-- The in-memory fields of class `MomentEngine`
(`src/utils/momentsEngine.tsx` lines 13–21). -/
structure EngineState where
  lastGeneratedMoments : List PhoneMoment
  lastGenerationTime : Int
  notifiedMoments : List (String × Int)
  seenMoments : List (String × Int)
  deriving DecidableEq, Repr

/-- The value `generateAndNotify` resolves to. -/
structure GenResult where
  moments : List PhoneMoment
  newNotificationsSent : Nat
  deriving DecidableEq, Repr

/-- Accumulator of the per-moment notification loop
(`src/utils/momentsEngine.tsx` lines 46–56): the evolving
`notifiedMoments` map, the `notificationsSent` counter, the storage
operations performed so far, and the ids for which
`notificationEngine.sendMomentNotification` has been invoked. -/
structure NotifyAcc where
  notified : List (String × Int)
  sent : Nat
  ops : List StorageOp
  attempts : List String
  deriving DecidableEq, Repr

/-- One iteration of the notification loop: skip non-candidates; on a
successful dispatch record the cooldown timestamp (`recordNotification`,
lines 266–272: in-memory update plus an `AsyncStorage.setItem`) and bump
the counter; on a failed dispatch change nothing but the attempt log. -/
def notifyStep (send : PhoneMoment → Bool) (now : Int)
    (acc : NotifyAcc) (m : PhoneMoment) : NotifyAcc :=
  if isNotificationCandidate m now acc.notified then
    if send m then
      let nm := setKey acc.notified m.id now
      { notified := nm, sent := acc.sent + 1,
        ops := acc.ops ++ [StorageOp.setItem keyNotified nm],
        attempts := acc.attempts ++ [m.id] }
    else { acc with attempts := acc.attempts ++ [m.id] }
  else acc

/-- The whole notification loop over the resolved moments, in order. -/
def notifyLoop (send : PhoneMoment → Bool) (now : Int)
    (acc : NotifyAcc) (ms : List PhoneMoment) : NotifyAcc :=
  ms.foldl (notifyStep send now) acc

/-- `MomentEngine.recordSeen` (`src/utils/momentsEngine.tsx` lines 278–290):
`ids.forEach(id => { if (!this.seenMoments[id]) this.seenMoments[id] = now })`.
A missing entry and a stored `0` are both falsy, hence both overwritten.
No trimming of any kind is performed. -/
def recordSeenMap (seen : List (String × Int)) (ids : List String)
    (now : Int) : List (String × Int) :=
  ids.foldl
    (fun s id =>
      match lookupKey s id with
      | none => setKey s id now
      | some v => if v = 0 then setKey s id now else s)
    seen

/-- `MomentEngine.generateAndNotify` (`src/utils/momentsEngine.tsx`
lines 27–61), on the happy persistence path, as a pure state transformer.
Inputs: the in-memory engine state, the durable store, the device snapshot,
the wall clock, and the dispatch boundary `send` (the success value of
`notificationEngine.sendMomentNotification`). Output: the resolved result,
the new in-memory state, the new durable store, and the ordered log of
storage operations the call performed. -/
def generateAndNotify (st : EngineState) (store : Store)
    (info : DeviceInfo) (caps : DeviceCapabilities) (runtime : RuntimeSignals)
    (clock : Clock) (send : PhoneMoment → Bool) :
    GenResult × EngineState × Store × List StorageOp :=
  let now := clock.now
  if now - st.lastGenerationTime < GENERATION_INTERVAL then
    ({ moments := st.lastGeneratedMoments, newNotificationsSent := 0 },
     st, store, [])
  else
    -- loadPersistence (lines 296–309): read both blobs into memory
    let notified0 := store.notified
    let seen0 := store.seen
    let rawMoments := generateMoments info caps runtime clock
    let resolvedMoments := resolveConflicts rawMoments
    let acc := notifyLoop send now
      { notified := notified0, sent := 0, ops := [], attempts := [] }
      resolvedMoments
    let seen1 := recordSeenMap seen0 (resolvedMoments.map (fun m => m.id)) now
    ({ moments := resolvedMoments, newNotificationsSent := acc.sent },
     { lastGeneratedMoments := resolvedMoments, lastGenerationTime := now,
       notifiedMoments := acc.notified, seenMoments := seen1 },
     { notified := acc.notified, seen := seen1 },
     [StorageOp.getItem keyNotified, StorageOp.getItem keySeen] ++ acc.ops ++
       [StorageOp.setItem keySeen seen1])

/-- Descending-timestamp order on history entries, the comparator
`(a, b) => b[1] - a[1]` of `src/utils/notificationsEngine.tsx` line 138. -/
def entryGE (a b : String × Int) : Prop := b.2 ≤ a.2

instance : DecidableRel entryGE := fun a b => by unfold entryGE; infer_instance

instance : IsTotal (String × Int) entryGE where
  total a b := by unfold entryGE; omega

instance : IsTrans (String × Int) entryGE where
  trans a b c hab hbc := by unfold entryGE at *; omega

/-- `NotificationEngine.recordMomentSeen`
(`src/utils/notificationsEngine.tsx` lines 130–146): insert the id at the
current time, then, when the map holds more than 100 entries, keep only the
100 most recent (sort descending by timestamp, slice to 100). -/
def recordMomentSeen (history : List (String × Int)) (momentId : String)
    (now : Int) : List (String × Int) :=
  if 100 < (setKey history momentId now).length then
    (List.insertionSort entryGE (setKey history momentId now)).take 100
  else setKey history momentId now

namespace V0

/-- Char-list prefix test, the primitive behind JS `String.includes`. -/
def startsWithChars : List Char → List Char → Bool
  | _, [] => true
  | [], _ :: _ => false
  | a :: as, b :: bs => a == b && startsWithChars as bs

/-- Char-list infix test, the primitive behind JS `String.includes`. -/
def hasInfixChars : List Char → List Char → Bool
  | [], pat => pat.isEmpty
  | a :: t, pat => startsWithChars (a :: t) pat || hasInfixChars t pat

/-- `s.toLowerCase().includes(pat)` for an already-lowercase `pat`
(`src/unnamed/part_000`, the pedometer-name checks). -/
def nameIncludes (s : String) (pat : String) : Bool :=
  hasInfixChars (s.toList.map Char.toLower) pat.toList

/-- `this.STEP_GOAL = 5000`. -/
def STEP_GOAL : Int := 5000

/-- `this.STEPS_CHECK_INTERVAL = 15 * 60 * 1000` (15 min). -/
def STEPS_CHECK_INTERVAL : Int := 15 * 60 * 1000

/-- The `stepStats` record of the `src/unnamed/part_000` engine. -/
structure StepStats where
  lastActiveHour : Int
  consecutiveInactiveHours : Int
  bestTimeForWalking : Int
  stepsPerHour : List Int
  lastLoadTime : Int
  deriving DecidableEq, Repr

/-- The step-tracking fields of the `src/unnamed/part_000` engine. -/
structure StepState where
  lastStepsCheck : Int
  lastStepsCount : Int
  stepHistory : List (Int × Int)
  stepStats : StepStats
  deriving DecidableEq, Repr

/-- `shouldCheckSteps(now)`: `now - this.lastStepsCheck > this.STEPS_CHECK_INTERVAL`. -/
def shouldCheckSteps (st : StepState) (now : Int) : Bool :=
  decide (STEPS_CHECK_INTERVAL < now - st.lastStepsCheck)

/-- `simulateStepCount(hour, isWeekend)` with the draw
`Math.floor(Math.random() * 500)` made explicit (`draw ∈ [0, 500)`). -/
def simulateStepCount (hour : Int) (isWeekend : Bool) (draw : Int) : Int :=
  let base : Int :=
    if hour < 6 then 100 else if hour < 12 then 1500
    else if hour < 18 then 3000 else 4000
  let base := if isWeekend then base + 1000 else base
  base + draw

/-- `this.stepStats.stepsPerHour[hour] += d` on the 24-slot array. -/
def bumpAt (l : List Int) (i : Int) (d : Int) : List Int :=
  l.enum.map (fun p => if (p.1 : Int) = i then p.2 + d else p.2)

/-- `updateStepStats(currentSteps, hour)` (`src/unnamed/part_000`):
hourly-bucket accounting, best-walk-hour update, and the
consecutive-inactive-hours counter. -/
def updateStepStats (st : StepState) (currentSteps hour now : Int) : StepState :=
  let stats := st.stepStats
  let stats :=
    if 0 < st.lastStepsCount ∧ st.lastStepsCount < currentSteps then
      let stepsThisHour := currentSteps - st.lastStepsCount
      let stats := { stats with stepsPerHour := bumpAt stats.stepsPerHour hour stepsThisHour }
      if 500 < stepsThisHour ∧ hour ≠ stats.bestTimeForWalking then
        { stats with bestTimeForWalking := hour }
      else stats
    else stats
  let stats :=
    if currentSteps = st.lastStepsCount then
      if hour ≠ stats.lastActiveHour then
        { stats with consecutiveInactiveHours := stats.consecutiveInactiveHours + 1 }
      else stats
    else { stats with lastActiveHour := hour, consecutiveInactiveHours := 0 }
  let history := st.stepHistory ++ [(now, currentSteps)]
  let history := if 96 < history.length then history.drop (history.length - 96) else history
  { lastStepsCheck := now, lastStepsCount := currentSteps,
    stepHistory := history, stepStats := stats }

/-- `getOptimalWalkTime(currentHour)`: first preferred slot of
`[9, 12, 15, 18]` with `currentHour <= time && currentHour >= time - 1`,
else the learned best hour, else 15. -/
def getOptimalWalkTime (stats : StepStats) (currentHour : Int) : Int :=
  match ([9, 12, 15, 18] : List Int).find?
      (fun t => decide (currentHour ≤ t) && decide (t - 1 ≤ currentHour)) with
  | some t => t
  | none => if stats.bestTimeForWalking ≠ -1 then stats.bestTimeForWalking else 15

/-- The `benefits` phrasing pool of `getWalkBenefit`. -/
def benefits : List String :=
  ["It can boost your creativity!",
   "Great for clearing your mind!",
   "Helps reduce stress levels!",
   "Perfect for some fresh air!",
   "Good for your posture!",
   "Helps improve circulation!"]

/-- `getWalkBenefit()` with the draw `Math.floor(Math.random() * benefits.length)`
made explicit. -/
def getWalkBenefit (benefitIdx : Nat) : String :=
  benefits.getD benefitIdx ""

/-- `isLikelyGoodWeather(hour)`. -/
def isLikelyGoodWeather (hour : Int) : Bool :=
  ([9, 10, 11, 14, 15, 16, 17] : List Int).contains hour

/-- `generateStepMoments(currentSteps, hour, day, isWeekend, caps)`
(`src/unnamed/part_000` lines 326–504), reading the already-updated
`stepStats`; `benefitIdx` is the phrasing draw of `getWalkBenefit`. -/
def generateStepMoments (stats : StepStats) (currentSteps hour day : Int)
    (isWeekend : Bool) (caps : DeviceCapabilities) (now endOfDay : Int)
    (benefitIdx : Nat) : List PhoneMoment :=
  let hasPedometer := caps.sensors.any
    (fun s => nameIncludes s.name "pedometer" || nameIncludes s.name "step")
  if !hasPedometer then []
  else
    let progressPercentage : ℚ := min ((currentSteps : ℚ) / (STEP_GOAL : ℚ) * 100) 100
    -- 🚶 Step Goal Achievements
    (if STEP_GOAL ≤ currentSteps then
      [{ id := "step-goal-achieved", emoji := "🏆",
         title := "Step Goal Achieved!",
         description := "You've reached " ++ toString currentSteps ++
           " steps today! Keep up the great work!",
         priority := 4, expiresAt := endOfDay, category := "fitness",
         notifyEligible := true }]
     else if 75 ≤ progressPercentage then
      [{ id := "step-goal-close", emoji := "🎯",
         title := "Almost There!",
         description := "You're " ++ toString (STEP_GOAL - currentSteps) ++
           " steps away from your daily goal.",
         priority := 3, expiresAt := endOfDay, category := "fitness",
         notifyEligible := false }]
     else if currentSteps = 0 ∧ 9 ≤ hour then
      [{ id := "step-day-start", emoji := "🌅",
         title := "Perfect day to move",
         description := "Start your day with a short walk to boost your energy!",
         priority := 3, expiresAt := now + 3 * 60 * 60 * 1000,
         category := "morning", notifyEligible := false }] else []) ++
    -- 🚶‍♂️ Activity Reminders
    (if 2 ≤ stats.consecutiveInactiveHours ∧ getOptimalWalkTime stats hour ≠ -1 then
      [{ id := "walk-suggestion", emoji := "🚶‍♂️",
         title := "Perfect time for a walk!",
         description := "You've been inactive for a while. How about a 10-minute walk? " ++
           getWalkBenefit benefitIdx,
         priority := 4, expiresAt := now + 2 * 60 * 60 * 1000,
         category := "activity", notifyEligible := true,
         suggestion := some "Take a 10-minute walk around the block" }] else []) ++
    -- 🏃‍♀️ Post-Lunch Activity
    (if hour = 14 ∧ currentSteps < 1000 then
      [{ id := "post-lunch-walk", emoji := "🍃",
         title := "Beat the afternoon slump",
         description := "A quick walk after lunch can improve focus and digestion.",
         priority := 3, expiresAt := now + 2 * 60 * 60 * 1000,
         category := "productivity", notifyEligible := true }] else []) ++
    -- 🌅 Morning Freshness
    (if 6 ≤ hour ∧ hour ≤ 8 ∧ currentSteps < 500 then
      [{ id := "morning-freshness", emoji := "🌅",
         title := "Morning freshness",
         description := "Start your day with a morning walk to boost mood and energy.",
         priority := 3, expiresAt := now + 2 * 60 * 60 * 1000,
         category := "morning", notifyEligible := false }] else []) ++
    -- 🌇 Evening Wind Down
    (if 17 ≤ hour ∧ hour ≤ 19 ∧ (currentSteps : ℚ) < (STEP_GOAL : ℚ) * (7 / 10) then
      [{ id := "evening-stroll", emoji := "🌇",
         title := "Evening stroll time",
         description := "Perfect weather for an evening walk to clear your mind.",
         priority := 3, expiresAt := endOfDay, category := "evening",
         notifyEligible := false }] else []) ++
    -- 📱 Phone Usage Balance
    (if 12 ≤ hour ∧ hour ≤ 16 ∧ 3 ≤ stats.consecutiveInactiveHours then
      [{ id := "screen-break", emoji := "📱",
         title := "Screen break time",
         description := "Been on your phone a while? A short walk can reduce eye strain.",
         priority := 4, expiresAt := now + 1 * 60 * 60 * 1000,
         category := "health", notifyEligible := true }] else []) ++
    -- 🎵 Walking with Music
    (if isWeekend ∧ 10 ≤ hour ∧ hour ≤ 18 ∧ (currentSteps : ℚ) < (STEP_GOAL : ℚ) * (5 / 10) then
      [{ id := "weekend-walk", emoji := "🎵",
         title := "Weekend vibes",
         description := "Perfect weekend for a walk with your favorite podcast or music.",
         priority := 3, expiresAt := endOfDay, category := "weekend",
         notifyEligible := false }] else []) ++
    -- ☀️ Good Weather Check (simulated)
    (if isLikelyGoodWeather hour ∧ 1 ≤ stats.consecutiveInactiveHours then
      [{ id := "weather-walk", emoji := "☀️",
         title := "Great weather for walking!",
         description := "The conditions are perfect for some fresh air and movement.",
         priority := 4, expiresAt := now + 3 * 60 * 60 * 1000,
         category := "weather", notifyEligible := true }] else []) ++
    -- 🏢 Break from Work/Study
    (if 9 ≤ hour ∧ hour ≤ 17 ∧ hour % 2 = 1 then
      [{ id := "work-break", emoji := "🏢",
         title := "Time for a break",
         description := "Research shows short walks during work improve productivity.",
         priority := 3, expiresAt := now + 1 * 60 * 60 * 1000,
         category := "productivity", notifyEligible := true }] else [])

/-- The context rules of the `src/unnamed/part_000` `generateMoments`
(its lines 130–283): the converged rules, with step-aware display text. -/
def contextMoments (stats : StepStats) (currentSteps : Int) (info : DeviceInfo)
    (caps : DeviceCapabilities) (runtime : RuntimeSignals) (clock : Clock) :
    List PhoneMoment :=
  let now := clock.now
  let endOfDay := clock.endOfDay
  let hour := clock.hour
  let day := clock.day
  let isWeekend : Prop := day = 0 ∨ day = 6
  let freePercent := storageFreePercent caps
  -- 🌅 Morning: full battery - ADDED STEP CONTEXT
  (if 6 ≤ hour ∧ hour ≤ 11 ∧ (9 : ℚ)/10 ≤ runtime.batteryLevel then
    [{ id := "morning-charge-ready", emoji := "☀️",
       title := "Phone fully charged",
       description := if currentSteps < 100 then
           "Perfect for tracking your morning walk!"
         else "Start your day without worrying about battery.",
       priority := 3, expiresAt := endOfDay, category := "morning",
       notifyEligible := false }] else []) ++
  -- 🚇 Commute: smooth experience - ADDED STEP CONTEXT
  (if 7 ≤ hour ∧ hour ≤ 10 ∧ 4 ≤ caps.performanceTier then
    [{ id := "commute-ready", emoji := "🚇",
       title := "Commute-ready phone",
       description := if 1000 < currentSteps then
           "Great job walking to the station! Your phone is ready for the ride."
         else "Smooth navigation, streaming, and music for your trip.",
       priority := 4, expiresAt := now + 2 * 60 * 60 * 1000,
       category := "commute", notifyEligible := true }] else []) ++
  -- 📈 Productivity - ADDED BREAK REMINDER
  (if 12 ≤ hour ∧ hour ≤ 17 ∧ 4 ≤ caps.performanceTier ∧
      (1 : ℚ)/2 < runtime.batteryLevel then
    [{ id := "productivity-window", emoji := "📈",
       title := "Good time for heavy tasks",
       description := if 2 ≤ stats.consecutiveInactiveHours then
           "Battery and performance are optimal. Consider a short walk break first!"
         else "Battery and performance are optimal for calls or apps.",
       priority := 4, expiresAt := now + 3 * 60 * 60 * 1000,
       category := "productivity", notifyEligible := true }] else []) ++
  -- 🎬 Evening entertainment - ADDED STEP CONTEXT
  (if 18 ≤ hour ∧ hour ≤ 23 ∧ 3 ≤ caps.performanceTier then
    [{ id := "evening-entertainment", emoji := "🎬",
       title := if 0 < STEP_GOAL - currentSteps then "Walk before entertainment?"
         else "Perfect for movies or gaming",
       description := if 0 < STEP_GOAL - currentSteps ∧ STEP_GOAL - currentSteps ≤ 1000 then
           "Just " ++ toString (STEP_GOAL - currentSteps) ++
             " steps to reach your goal before movie time!"
         else "Your phone can handle longer sessions tonight.",
       priority := 4, expiresAt := endOfDay, category := "entertainment",
       notifyEligible := false }] else []) ++
  -- 💾 Storage alerts
  (if freePercent < 10 then
    [{ id := "storage-critical", emoji := "⚠️",
       title := "Storage almost full",
       description := "Free up space to keep your phone fast.",
       priority := 5, expiresAt := endOfDay, category := "storage",
       notifyEligible := true,
       suggestion := some "Delete large files or unused apps" }]
   else if freePercent < 30 then
    [{ id := "storage-warning", emoji := "🛋️",
       title := "Storage getting tight",
       description := "Consider cleaning up some files soon.",
       priority := 3, expiresAt := endOfDay, category := "storage",
       notifyEligible := false }] else []) ++
  -- ⚡ Performance: smooth display
  (if (match info.refreshRate with
       | none => false
       | some r => !(r == 0) && decide (120 ≤ r)) then
    [{ id := "high-refresh-display", emoji := "✨",
       title := "Ultra-smooth scrolling",
       description := "120Hz screen for silky animations and fluid scrolling.",
       priority := 4, expiresAt := endOfDay, category := "performance",
       notifyEligible := false }] else []) ++
  -- 🛰️ Sensors: real benefit for apps
  (if 3 ≤ (caps.sensors.filter (fun s => s.available)).length then
    [{ id := "sensor-usage", emoji := "🛰️",
       title := "Sensors ready",
       description := "AR, fitness, and navigation apps will perform well.",
       priority := 3, expiresAt := endOfDay, category := "sensors",
       notifyEligible := false }] else []) ++
  -- 🎮 Weekend gaming
  (if isWeekend ∧ 4 ≤ caps.gamingTier then
    [{ id := "weekend-gaming", emoji := "🎮",
       title := "Gaming session ready",
       description := "Your phone can handle long gaming sessions without lag.",
       priority := 4, expiresAt := endOfDay, category := "weekend",
       notifyEligible := false }] else []) ++
  -- 🔋 Low battery alert
  (if 0 < runtime.batteryLevel ∧ runtime.batteryLevel < (1 : ℚ)/5 then
    [{ id := "battery-low", emoji := "🔋",
       title := "Low battery",
       description := "Battery under 20%, consider charging soon.",
       priority := 5, expiresAt := now + 2 * 60 * 60 * 1000,
       category := "battery", notifyEligible := true }] else [])

/-- `generateMoments` of the `src/unnamed/part_000` engine (its lines
100–283): when a step check is due, draw a simulated step count
(`stepDraw` is the `Math.floor(Math.random() * 500)` variation) and update
the activity stats; then emit the step moments followed by the context
moments. Returns the updated step state together with the moment list. -/
def generateMomentsV0 (st : StepState) (info : DeviceInfo)
    (caps : DeviceCapabilities) (runtime : RuntimeSignals) (clock : Clock)
    (stepDraw : Int) (benefitIdx : Nat) : StepState × List PhoneMoment :=
  let isWeekend : Bool := clock.day == 0 || clock.day == 6
  let doCheck := shouldCheckSteps st clock.now
  let currentSteps := if doCheck then simulateStepCount clock.hour isWeekend stepDraw else 0
  let st1 := if doCheck then updateStepStats st currentSteps clock.hour clock.now else st
  let stepMoments := generateStepMoments st1.stepStats currentSteps clock.hour
    clock.day isWeekend caps clock.now clock.endOfDay benefitIdx
  (st1, stepMoments ++
    contextMoments st1.stepStats currentSteps info caps runtime clock)

end V0

/-- The (id, priority, notifyEligible) signature of a moment: everything a
moment carries apart from display text and expiry bookkeeping. -/
def momentSig (m : PhoneMoment) : String × Int × Bool :=
  (m.id, m.priority, m.notifyEligible)

/-- Concrete moment for the C1 witness: notify-eligible, priority 5,
expiring 30 minutes after the reference time 1000. -/
def c1moment : PhoneMoment :=
  { id := "battery-low", emoji := "", title := "", description := "",
    priority := 5, expiresAt := 1000 + 30 * 60 * 1000, category := "",
    notifyEligible := true }

/-- Concrete moment for the C2 theorems: notify-eligible, priority 4,
far from expiry, whose id carries a cooldown entry at time 1000. -/
def c2moment : PhoneMoment :=
  { id := "commute-ready", emoji := "", title := "", description := "",
    priority := 4, expiresAt := 200000000, category := "",
    notifyEligible := true }

/-- Concrete cached moment for the C3 witness. -/
def c3moment : PhoneMoment :=
  { id := "commute-ready", emoji := "🚇", title := "Commute-ready phone",
    description := "Smooth navigation, streaming, and music for your trip.",
    priority := 4, expiresAt := 99999999, category := "commute",
    notifyEligible := true }

/-- Concrete engine state for the C3 witness: last cycle ran at time 1000. -/
def c3state : EngineState :=
  { lastGeneratedMoments := [c3moment], lastGenerationTime := 1000,
    notifiedMoments := [], seenMoments := [] }

/-- Concrete durable store for the C3 witness. -/
def c3store : Store := { notified := [("x", 5)], seen := [("y", 7)] }

/-- Concrete clock for the C3 witness: 200 ms after the last cycle. -/
def c3clock : Clock := { now := 1200, endOfDay := 99999999, hour := 9, day := 3 }

/-- Concrete capabilities snapshot for the C3 witness. -/
def c3caps : DeviceCapabilities :=
  { performanceTier := 5, gamingTier := 5, storageTotal := 100,
    storageFree := 50, sensors := [] }

/-- Concrete priority-5 moment for the C4 witness. -/
def c4critical : PhoneMoment :=
  { id := "battery-low", emoji := "", title := "", description := "",
    priority := 5, expiresAt := 5, category := "", notifyEligible := true }

/-- Concrete priority-3 moment for the C4 witness. -/
def c4low : PhoneMoment :=
  { id := "storage-warning", emoji := "", title := "", description := "",
    priority := 3, expiresAt := 9, category := "", notifyEligible := false }

/-- Concrete candidate moment for the C7 witness. -/
def c7moment : PhoneMoment :=
  { id := "productivity-window", emoji := "", title := "", description := "",
    priority := 4, expiresAt := 100000000, category := "",
    notifyEligible := true }

/-- Empty loop accumulator for the C7 witness. -/
def c7acc : NotifyAcc := { notified := [], sent := 0, ops := [], attempts := [] }

/-- 101 distinct moment ids, for the C8 counterexample. -/
def c8ids : List String := (List.range 101).map (fun n => toString n)

/-- A 101-entry seen-history map, for the C8 witness. -/
def c8hist : List (String × Int) :=
  (List.range 101).map (fun n => (toString n, (n : Int)))

/-- Concrete step state for the C9 counterexample: a step check is due,
the previous reading was 5200 steps, one inactive hour is on record, and
the last active hour (10) differs from the current hour. -/
def c9state : V0.StepState :=
  { lastStepsCheck := 0, lastStepsCount := 5200, stepHistory := [],
    stepStats := { lastActiveHour := 10, consecutiveInactiveHours := 1,
                   bestTimeForWalking := -1,
                   stepsPerHour := List.replicate 24 0, lastLoadTime := 0 } }

/-- Concrete clock for the C9 counterexample: Saturday, 20:00. -/
def c9clock : Clock := { now := 1000000000, endOfDay := 1036000000, hour := 20, day := 6 }

/-- Concrete capabilities for the C9 counterexample: a pedometer is present,
storage is half free, tiers are low. -/
def c9caps : DeviceCapabilities :=
  { performanceTier := 2, gamingTier := 0, storageTotal := 100,
    storageFree := 50, sensors := [{ name := "Pedometer", available := true }] }

/-- Concrete device info for the C9 counterexample. -/
def c9info : DeviceInfo := {}

/-- Concrete runtime signals for the C9 counterexample. -/
def c9runtime : RuntimeSignals := { batteryLevel := 1/2 }

/-- Concrete capabilities for the C10 witness: `storage.total = 0` and
`storage.free = 0`. -/
def c10caps : DeviceCapabilities :=
  { performanceTier := 0, gamingTier := 0, storageTotal := 0,
    storageFree := 0, sensors := [] }

/-- Concrete clock for the C10 witness. -/
def c10clock : Clock := { now := 0, endOfDay := 0, hour := 0, day := 1 }

/-- C1: `isNotificationCandidate(m, now, H)` returns true iff
`m.notifyEligible` is true, `m.priority ≥ 4`, `m.expiresAt - now ≥ 1 hour`,
and the cooldown condition on the notification history for `m.id` holds;
in particular a notify-eligible priority-5 moment expiring 30 minutes from
now is never a candidate. -/
theorem spec_c1_gatekeeper_iff :
    ∀ (m : PhoneMoment) (now : Int) (h : List (String × Int)),
    (isNotificationCandidate m now h = true ↔
      (m.notifyEligible = true ∧ 4 ≤ m.priority ∧
       60 * 60 * 1000 ≤ m.expiresAt - now ∧ cooldownOk h m.id now = true)) ∧
    (m.notifyEligible = true → m.priority = 5 →
      m.expiresAt - now = 30 * 60 * 1000 →
      isNotificationCandidate m now h = false) := by
  intro m now h
  unfold isNotificationCandidate
  constructor
  · split_ifs with h1 h2 h3 <;> simp_all <;> omega
  · intro e p x
    split_ifs with h1 h2 h3 <;> simp_all <;> omega

/-- Witness for C1: a notify-eligible priority-5 moment expiring exactly
30 minutes after time 1000 is not a notification candidate. -/
theorem spec_c1_gatekeeper_iff_witness :
    (c1moment.notifyEligible = true ∧ c1moment.priority = 5 ∧
     c1moment.expiresAt - 1000 = 30 * 60 * 1000) ∧
    isNotificationCandidate c1moment 1000 [] = false :=
  ⟨⟨rfl, rfl, by decide⟩,
   (spec_c1_gatekeeper_iff c1moment 1000 []).2 rfl rfl (by decide)⟩

/-- Counterexample to C2 as stated: a moment whose id was recorded at
time 1000 and that satisfies every other eligibility condition is NOT
dispatched at exactly `T' - T = NOTIFICATION_COOLDOWN` (4 hours), because
the code requires `now - last > cooldown` strictly. -/
theorem spec_c2_cooldown_boundary_cx :
    (c2moment.notifyEligible = true ∧ 4 ≤ c2moment.priority ∧
     60 * 60 * 1000 ≤ c2moment.expiresAt - (1000 + NOTIFICATION_COOLDOWN) ∧
     (1000 + NOTIFICATION_COOLDOWN) - 1000 = NOTIFICATION_COOLDOWN) ∧
    isNotificationCandidate c2moment (1000 + NOTIFICATION_COOLDOWN)
      [("commute-ready", 1000)] = false := by
  decide

/-- C2 amended: for a moment id notified at time `T > 0`, a candidate at
time `T'` is never dispatched while `T' - T ≤ 4` hours (in particular not
at exactly 4 hours), and is dispatched again once `T' - T > 4` hours when
every other eligibility condition holds. -/
theorem spec_c2_cooldown_amended :
    ∀ (m : PhoneMoment) (hist : List (String × Int)) (T now : Int),
    lookupKey hist m.id = some T → 0 < T →
    ((now - T ≤ NOTIFICATION_COOLDOWN → isNotificationCandidate m now hist = false) ∧
     (NOTIFICATION_COOLDOWN < now - T → m.notifyEligible = true → 4 ≤ m.priority →
       60 * 60 * 1000 ≤ m.expiresAt - now → isNotificationCandidate m now hist = true)) := by
  intro m hist T now hl hT
  unfold isNotificationCandidate cooldownOk
  rw [hl]
  constructor
  · intro hcool
    split_ifs <;> simp_all <;> omega
  · intro hcool he hp hx
    split_ifs <;> simp_all <;> omega

/-- Witness for the amended C2: with a cooldown entry at time 1000, the
same moment is blocked at `now = 1000 + 4h` and dispatched at
`now = 1000 + 4h + 1`. -/
theorem spec_c2_cooldown_amended_witness :
    isNotificationCandidate c2moment (1000 + NOTIFICATION_COOLDOWN)
      [("commute-ready", 1000)] = false ∧
    isNotificationCandidate c2moment (1000 + NOTIFICATION_COOLDOWN + 1)
      [("commute-ready", 1000)] = true :=
  ⟨(spec_c2_cooldown_amended c2moment [("commute-ready", 1000)] 1000
      (1000 + NOTIFICATION_COOLDOWN) (by decide) (by decide)).1 (by decide),
   (spec_c2_cooldown_amended c2moment [("commute-ready", 1000)] 1000
      (1000 + NOTIFICATION_COOLDOWN + 1) (by decide) (by decide)).2
      (by decide) rfl (by decide) (by decide)⟩

/-- C3: a `generateAndNotify` call within `GENERATION_INTERVAL` (30 min) of
the last generation returns exactly the cached moment list with zero new
notifications, leaves the in-memory state and the durable store unchanged,
and performs no storage operations at all. -/
theorem spec_c3_throttle_frame :
    ∀ (st : EngineState) (store : Store) (info : DeviceInfo)
      (caps : DeviceCapabilities) (runtime : RuntimeSignals) (clock : Clock)
      (send : PhoneMoment → Bool),
    clock.now - st.lastGenerationTime < GENERATION_INTERVAL →
    generateAndNotify st store info caps runtime clock send =
      ({ moments := st.lastGeneratedMoments, newNotificationsSent := 0 },
       st, store, []) := by
  intro st store info caps runtime clock send h
  unfold generateAndNotify
  rw [if_pos h]

/-- Witness for C3: a concrete throttled call (200 ms after the last run)
returns the cached list, zero notifications, unchanged state and store,
and an empty operation log. -/
theorem spec_c3_throttle_frame_witness :
    c3clock.now - c3state.lastGenerationTime < GENERATION_INTERVAL ∧
    generateAndNotify c3state c3store {} c3caps { batteryLevel := 1 } c3clock
        (fun _ => true) =
      ({ moments := [c3moment], newNotificationsSent := 0 },
       c3state, c3store, []) :=
  ⟨by decide,
   spec_c3_throttle_frame c3state c3store {} c3caps { batteryLevel := 1 }
     c3clock (fun _ => true) (by decide)⟩

/-- C4: if any candidate has priority 5, the resolver's output contains no
moment of priority below 4; if no candidate has priority 5, the filtering
step drops nothing — the output is exactly the sorted candidate list
(a permutation of the input) capped at 4. -/
theorem spec_c4_critical_suppression :
    ∀ l : List PhoneMoment,
    ((∃ m ∈ l, m.priority = 5) → ∀ m ∈ resolveConflicts l, ¬(m.priority < 4)) ∧
    ((∀ m ∈ l, m.priority ≠ 5) →
      resolveConflicts l = (List.insertionSort momentLE l).take 4 ∧
      (List.insertionSort momentLE l).Perm l) := by
  intro l
  constructor
  · rintro ⟨c, hc, hc5⟩ m hm
    have hcrit : l.any (fun m => m.priority == 5) = true := by
      simp [List.any_eq_true]
      exact ⟨c, hc, hc5⟩
    simp only [resolveConflicts, hcrit, if_true] at hm
    have hm2 := (List.perm_insertionSort momentLE _).mem_iff.mp
      (List.mem_of_mem_take hm)
    have h4 := (List.mem_filter.mp hm2).2
    simp at h4
    omega
  · intro hno
    have hcrit : l.any (fun m => m.priority == 5) = false := by
      simp [List.any_eq_false]
      intro m hm
      exact hno m hm
    simp only [resolveConflicts, hcrit, Bool.false_eq_true, if_false]
    exact ⟨trivial, List.perm_insertionSort momentLE l⟩

/-- Witness for C4: with a priority-5 and a priority-3 candidate the output
has nothing below priority 4; with only the priority-3 candidate the
filtering step drops nothing. -/
theorem spec_c4_critical_suppression_witness :
    ((∃ m ∈ [c4critical, c4low], m.priority = 5) ∧
     ∀ m ∈ resolveConflicts [c4critical, c4low], ¬(m.priority < 4)) ∧
    ((∀ m ∈ [c4low], m.priority ≠ 5) ∧
     resolveConflicts [c4low] = (List.insertionSort momentLE [c4low]).take 4 ∧
     (List.insertionSort momentLE [c4low]).Perm [c4low]) :=
  ⟨⟨by decide, (spec_c4_critical_suppression [c4critical, c4low]).1 (by decide)⟩,
   ⟨by decide, (spec_c4_critical_suppression [c4low]).2 (by decide)⟩⟩

/-- C5: every pair of adjacent moments `(a, b)` in the resolver's output
satisfies `a.priority > b.priority`, or `a.priority = b.priority` and
`a.expiresAt ≤ b.expiresAt`. -/
theorem spec_c5_ordering :
    ∀ l : List PhoneMoment, List.Chain' momentLE (resolveConflicts l) := by
  intro l
  unfold resolveConflicts
  exact List.Pairwise.chain'
    (List.Pairwise.sublist (List.take_sublist 4 _)
      (List.sorted_insertionSort momentLE _))

/-- C6: the resolver's output never exceeds four moments, and the empty
candidate list resolves to the empty list. -/
theorem spec_c6_cap :
    ∀ l : List PhoneMoment,
    (resolveConflicts l).length ≤ 4 ∧ resolveConflicts [] = [] := by
  intro l
  refine ⟨?_, rfl⟩
  unfold resolveConflicts
  simp [List.length_take]

/-- C7: when an eligible moment's dispatch fails, the notification loop
records no cooldown timestamp for it, performs no storage write for it,
does not increment the sent counter, attempts it exactly once (no in-cycle
retry), and continues processing the remaining candidates from the same
accumulator. -/
theorem spec_c7_dispatch_failure :
    ∀ (send : PhoneMoment → Bool) (now : Int)
      (ms₁ ms₂ : List PhoneMoment) (m : PhoneMoment) (acc₀ : NotifyAcc),
    isNotificationCandidate m now (notifyLoop send now acc₀ ms₁).notified = true →
    send m = false →
    notifyLoop send now acc₀ (ms₁ ++ m :: ms₂) =
      notifyLoop send now
        { notifyLoop send now acc₀ ms₁ with
          attempts := (notifyLoop send now acc₀ ms₁).attempts ++ [m.id] } ms₂ := by
  intro send now ms₁ ms₂ m acc₀ hc hf
  unfold notifyLoop at *
  rw [List.foldl_append, List.foldl_cons]
  congr 1
  simp only [notifyStep, hc, hf, if_true, Bool.false_eq_true, if_false]

/-- Witness for C7: a concrete eligible moment whose dispatch fails leaves
the accumulator's map, counter and operation log unchanged and only logs
one attempt. -/
theorem spec_c7_dispatch_failure_witness :
    isNotificationCandidate c7moment 1000
      (notifyLoop (fun _ => false) 1000 c7acc []).notified = true ∧
    notifyLoop (fun _ => false) 1000 c7acc ([] ++ c7moment :: []) =
      notifyLoop (fun _ => false) 1000
        { notifyLoop (fun _ => false) 1000 c7acc [] with
          attempts := (notifyLoop (fun _ => false) 1000 c7acc []).attempts ++
            [c7moment.id] } [] :=
  ⟨by decide,
   spec_c7_dispatch_failure (fun _ => false) 1000 [] [] c7moment c7acc
     (by decide) rfl⟩

set_option maxRecDepth 4000 in
/-- Counterexample to C8 as stated: one `MomentEngine.recordSeen` call over
101 distinct ids leaves 101 entries in the seen map — that operation
performs no trimming, so the stored seen-history is not bounded by 100. -/
theorem spec_c8_record_seen_unbounded_cx :
    100 < (recordSeenMap [] c8ids 5).length := by
  decide

/-- C8 amended: the bounded-size guarantee holds for the notification
engine's `recordMomentSeen`: its result never exceeds 100 entries, every
kept entry comes from the updated history, and whenever trimming occurs the
kept entries are the most recent ones (descending-timestamp order). The
moment engine's own `recordSeen` performs no trimming. -/
theorem spec_c8_seen_history_bounded :
    ∀ (hist : List (String × Int)) (id : String) (now : Int),
    (recordMomentSeen hist id now).length ≤ 100 ∧
    (∀ e ∈ recordMomentSeen hist id now, e ∈ setKey hist id now) ∧
    (100 < (setKey hist id now).length →
      List.Sorted entryGE (recordMomentSeen hist id now)) := by
  intro hist id now
  unfold recordMomentSeen
  split_ifs with h
  · refine ⟨?_, ?_, ?_⟩
    · simp [List.length_take]
    · intro e he
      exact (List.perm_insertionSort entryGE _).mem_iff.mp
        (List.mem_of_mem_take he)
    · intro _
      exact List.Pairwise.sublist (List.take_sublist _ _)
        (List.sorted_insertionSort entryGE _)
  · exact ⟨by omega, fun e he => he, fun hc => absurd hc h⟩

set_option maxRecDepth 4000 in
/-- Witness for the amended C8: inserting a fresh id into a 101-entry
history trims the stored map to at most 100 entries, sorted by recency. -/
theorem spec_c8_seen_history_bounded_witness :
    100 < (setKey c8hist "extra" 500).length ∧
    (recordMomentSeen c8hist "extra" 500).length ≤ 100 ∧
    List.Sorted entryGE (recordMomentSeen c8hist "extra" 500) :=
  ⟨by decide,
   (spec_c8_seen_history_bounded c8hist "extra" 500).1,
   (spec_c8_seen_history_bounded c8hist "extra" 500).2.2 (by decide)⟩

/-- Counterexample to C9 as stated: two runs of the `src/unnamed/part_000`
generator on identical inputs and state, differing only in the random
step-count draw (200 versus 0, both within the valid range `[0, 500)`),
emit different moment-id sets: the first emits `walk-suggestion`, the
second does not. The draw decides whether the simulated step count equals
the previous reading, which drives `consecutiveInactiveHours` and with it
the walk-suggestion rule. -/
theorem spec_c9_randomness_changes_set_cx :
    ((0 : Int) ≤ 200 ∧ (200 : Int) < 500 ∧ (0 : Int) ≤ 0 ∧ (0 : Int) < 500) ∧
    "walk-suggestion" ∈
      ((V0.generateMomentsV0 c9state c9info c9caps c9runtime c9clock 200 0).2).map
        PhoneMoment.id ∧
    "walk-suggestion" ∉
      ((V0.generateMomentsV0 c9state c9info c9caps c9runtime c9clock 0 0).2).map
        PhoneMoment.id := by
  have hp1 : V0.nameIncludes "Pedometer" "pedometer" = true := by decide
  refine ⟨by decide, ?_, ?_⟩ <;>
  norm_num [V0.generateMomentsV0, V0.generateStepMoments, V0.contextMoments,
    V0.shouldCheckSteps, V0.simulateStepCount, V0.updateStepStats,
    V0.getOptimalWalkTime, V0.isLikelyGoodWeather, hp1,
    V0.benefits, V0.getWalkBenefit, V0.STEP_GOAL, V0.STEPS_CHECK_INTERVAL,
    V0.bumpAt, storageFreePercent, storageDenominator,
    c9state, c9clock, c9caps, c9info, c9runtime]
  all_goals decide

/-- C9 amended: the phrasing draw (the `getWalkBenefit` index) never
affects which moments the `src/unnamed/part_000` generator emits, their
priority, or their notification eligibility — for a fixed step-count draw,
any two phrasing draws yield identical (id, priority, notifyEligible)
sequences. (Set-level determinism across step-count draws is refuted by
the counterexample.) -/
theorem spec_c9_phrasing_draw_invariance :
    ∀ (st : V0.StepState) (info : DeviceInfo) (caps : DeviceCapabilities)
      (runtime : RuntimeSignals) (clock : Clock) (stepDraw : Int) (b₁ b₂ : Nat),
    ((V0.generateMomentsV0 st info caps runtime clock stepDraw b₁).2).map momentSig =
    ((V0.generateMomentsV0 st info caps runtime clock stepDraw b₂).2).map momentSig := by
  intro st info caps runtime clock stepDraw b₁ b₂
  simp only [V0.generateMomentsV0]
  rw [List.map_append, List.map_append]
  congr 1
  simp only [V0.generateStepMoments, List.map_append,
    apply_ite (List.map momentSig), List.map_cons, List.map_nil, momentSig]

/-- C10: the storage free-percentage computation is total — its denominator
is never zero (a falsy `storage.total` falls back to 100); with
`storage.total = 0` the free byte count itself becomes the percentage; and
with `storage.total = 0` and `storage.free = 0` the generator emits the
priority-5, notify-eligible `storage-critical` moment. -/
theorem spec_c10_storage_fallback_total :
    ∀ (info : DeviceInfo) (caps : DeviceCapabilities)
      (runtime : RuntimeSignals) (clock : Clock),
    storageDenominator caps ≠ 0 ∧
    (caps.storageTotal = 0 → storageFreePercent caps = caps.storageFree) ∧
    (caps.storageTotal = 0 → caps.storageFree = 0 →
      ∃ m ∈ generateMoments info caps runtime clock,
        m.id = "storage-critical" ∧ m.priority = 5 ∧ m.notifyEligible = true) := by
  intro info caps runtime clock
  refine ⟨?_, ?_, ?_⟩
  · unfold storageDenominator
    split_ifs with h
    · norm_num
    · exact h
  · intro h0
    unfold storageFreePercent storageDenominator
    rw [if_pos h0]
    field_simp
  · intro h0 hf
    have hfp : storageFreePercent caps = 0 := by
      unfold storageFreePercent
      rw [hf]
      simp
    refine ⟨{ id := "storage-critical", emoji := "⚠️",
              title := "Storage almost full",
              description := "Free up space to keep your phone fast.",
              priority := 5, expiresAt := clock.endOfDay, category := "storage",
              notifyEligible := true,
              suggestion := some "Delete large files or unused apps" },
            ?_, rfl, rfl, rfl⟩
    simp [generateMoments, hfp]

/-- Witness for C10: with `storage.total = 0` and `storage.free = 0` the
denominator is the fallback 100, the free percentage equals the free byte
count (0), and the `storage-critical` moment is emitted with priority 5. -/
theorem spec_c10_storage_fallback_total_witness :
    storageDenominator c10caps ≠ 0 ∧
    storageFreePercent c10caps = c10caps.storageFree ∧
    ∃ m ∈ generateMoments {} c10caps { batteryLevel := 1 } c10clock,
      m.id = "storage-critical" ∧ m.priority = 5 ∧ m.notifyEligible = true :=
  ⟨(spec_c10_storage_fallback_total {} c10caps { batteryLevel := 1 } c10clock).1,
   (spec_c10_storage_fallback_total {} c10caps { batteryLevel := 1 } c10clock).2.1 rfl,
   (spec_c10_storage_fallback_total {} c10caps { batteryLevel := 1 } c10clock).2.2 rfl rfl⟩
